import Mathlib

/-
  Verification development for the Invoice-manager frontend.

  The repository has three screens: a subscription manager
  (SubscriptionManager component), a checkout-success page
  (CheckoutSuccess component) and a static checkout-cancel page.
  This file gives a shallow embedding of the data model, the
  view-model derivation functions, the mutation layer and the
  per-screen render logic, translated from the TypeScript source,
  and proves or refutes the specification claims about them.
-/

namespace InvoiceFrontend

/-- Value that is either a number or the string sentinel "unlimited",
mirroring the `limit: number | string` / `remaining: number | string`
fields of the Usage interface. -/
inductive NumOrUnlimited where
  | num (n : ℚ)
  | unlimited
deriving DecidableEq

/-- Metered resource record from the Usage interface:
`email_connections: \x7b used, limit, remaining \x7d`. -/
structure EmailConnections where
  used : ℚ
  limit : NumOrUnlimited
  remaining : NumOrUnlimited
deriving DecidableEq

/-- Nested `usage` object of the Usage interface. -/
structure UsageDetail where
  email_connections : EmailConnections
deriving DecidableEq

/-- Usage record as fetched from /api/subscriptions/usage.  The nested
`usage` object is optional in the interface, hence `Option`. -/
structure UsageObj where
  has_subscription : Bool
  usage : Option UsageDetail
deriving DecidableEq

/-- The subscription value as actually consumed by the component.  The
query data is an arbitrary JSON object, so every field the render code
reads is modelled as optional: a field read on an object that lacks it
yields `undefined` (here `none`).  The `has_subscription` field lets us
represent a `\x7bhas_subscription: false\x7d`-style response object. -/
structure SubObj where
  status : Option String
  stripe_subscription_id : Option String
  price_id : Option String
  current_period_start : Option String
  current_period_end : Option String
  latest_invoice_id : Option String
  has_subscription : Option Bool
deriving DecidableEq

/-- A SubObj with every field absent, for building concrete inputs. -/
def emptySubObj : SubObj :=
  { status := none, stripe_subscription_id := none, price_id := none,
    current_period_start := none, current_period_end := none,
    latest_invoice_id := none, has_subscription := none }

namespace SubscriptionManager

/-- Fraction of the usage progress bar, translated from the inline
width computation of SubscriptionManager (the style width is
`(used / Number(limit)) * 100` percent unless
`limit === 'unlimited'`, which renders `'100%'`); a width of w percent
is the fraction w / 100.  Note the source applies no clamping. -/
def progressFraction (used : ℚ) (limit : NumOrUnlimited) : ℚ :=
  match limit with
  | NumOrUnlimited.unlimited => 1
  | NumOrUnlimited.num n => used / n

/-- Remaining-quota text, translated from the ternary on
`usage.usage.email_connections.remaining` in SubscriptionManager. -/
def remainingText (remaining : NumOrUnlimited) : String :=
  match remaining with
  | NumOrUnlimited.unlimited => "Unlimited connections available"
  | NumOrUnlimited.num n => toString n.num ++ " connections remaining"

/-- Icon value rendered by getStatusIcon: an icon name and its
className string. -/
structure Icon where
  name : String
  className : String
deriving DecidableEq

/-- Translation of getStatusIcon: a switch on the status string with a
gray AlertCircle default arm. -/
def getStatusIcon (status : String) : Icon :=
  if status = "active" then { name := "CheckCircle", className := "w-5 h-5 text-green-500" }
  else if status = "canceled" then { name := "XCircle", className := "w-5 h-5 text-red-500" }
  else if status = "past_due" then { name := "AlertCircle", className := "w-5 h-5 text-yellow-500" }
  else { name := "AlertCircle", className := "w-5 h-5 text-gray-500" }

/-- Translation of getStatusColor: a switch on the status string with a
gray default arm. -/
def getStatusColor (status : String) : String :=
  if status = "active" then "text-green-600 bg-green-100"
  else if status = "canceled" then "text-red-600 bg-red-100"
  else if status = "past_due" then "text-yellow-600 bg-yellow-100"
  else "text-gray-600 bg-gray-100"

/-- Sub-section rendered in the subscription-status slot: either the
"Current Subscription" card with its action buttons, or the
"No Active Subscription" call-to-action. -/
inductive SubSection where
  | card (showCancel : Bool) (showReactivate : Bool)
  | noActiveCTA
deriving DecidableEq

/-- Top-level view of the SubscriptionManager component: the early
loading return, the early error return, or the main layout with its
subscription section, usage-section flag and billing-section flag. -/
inductive ManagerView where
  | loading
  | errorView
  | main (sub : SubSection) (usageShown : Bool) (billingShown : Bool)
deriving DecidableEq

/-- Inputs of one SubscriptionManager render: the two query loading
flags, the subscription query error flag, and the two query data
values.  A `none` data value models a null/undefined (falsy) fetch
result; `some` models any object (truthy in JS). -/
structure ManagerProps where
  subscriptionLoading : Bool
  usageLoading : Bool
  subscriptionError : Bool
  subscription : Option SubObj
  usage : Option UsageObj
deriving DecidableEq

/-- Subscription-status slot, translated from the
`subscription ? (...) : (...)` ternary: any (truthy) object renders the
card, whose Cancel button is guarded by `status === 'active'` and whose
Reactivate button is guarded by `status === 'canceled'`; a falsy value
renders the "No Active Subscription" call-to-action. -/
def subSection (d : Option SubObj) : SubSection :=
  match d with
  | some o => SubSection.card (o.status == some "active") (o.status == some "canceled")
  | none => SubSection.noActiveCTA

/-- Guard of the usage-information section, translated from
`usage?.has_subscription && usage.usage && (...)`. -/
def usageSectionShown (u : Option UsageObj) : Bool :=
  match u with
  | some uo => uo.has_subscription && uo.usage.isSome
  | none => false

/-- Outcome of one SubscriptionManager render call: either a completed
view, or a TypeError thrown while evaluating the returned element
tree. -/
inductive ManagerRender where
  | ok (v : ManagerView)
  | throws
deriving DecidableEq

/-- Render function of SubscriptionManager, translated from its return
statements: loading when either query is loading, the dedicated error
view when the subscription query errored, otherwise the main layout.
The billing section is guarded by `subscription && (...)` — so it is
evaluated for every truthy subscription value — and its status row
computes `subscription.status.charAt(0).toUpperCase() +
subscription.status.slice(1)`, which throws a TypeError when the
truthy object has no status string, aborting the whole render; with a
status string present (even empty) nothing in the layout throws, the
remaining field reads being plain renders, Date constructions or the
total switch functions. -/
def renderManager (p : ManagerProps) : ManagerRender :=
  if p.subscriptionLoading || p.usageLoading then ManagerRender.ok ManagerView.loading
  else if p.subscriptionError then ManagerRender.ok ManagerView.errorView
  else
    match p.subscription with
    | none =>
      ManagerRender.ok (ManagerView.main SubSection.noActiveCTA
        (usageSectionShown p.usage) false)
    | some o =>
      match o.status with
      | none => ManagerRender.throws
      | some _ =>
        ManagerRender.ok (ManagerView.main (subSection (some o))
          (usageSectionShown p.usage) true)

/-- Subscription slot of a render outcome, when the main layout was
completed. -/
def shownSubSection (r : ManagerRender) : Option SubSection :=
  match r with
  | ManagerRender.ok (ManagerView.main s _ _) => some s
  | _ => none

/-- Whether a render outcome is a completed main layout. -/
def isMainLayout (r : ManagerRender) : Bool :=
  match r with
  | ManagerRender.ok (ManagerView.main _ _ _) => true
  | _ => false

/-- An HTTP request as issued through fetch: url, method, the
Content-Type header when one is set, and the body when one is sent. -/
structure HttpRequest where
  url : String
  method : String
  contentType : Option String
  body : Option String
deriving DecidableEq

/-- Escape of one character inside a JSON string literal, as
JSON.stringify performs it for the quote and backslash characters (the
subscription ids at issue contain no control characters). -/
def jsonEscapeChar (c : Char) : String :=
  if c = '\\' then "\\\\"
  else if c = '"' then "\\\""
  else String.singleton c

/-- Escape of a whole string for inclusion in a JSON string literal. -/
def jsonEscape (s : String) : String :=
  String.join (s.toList.map jsonEscapeChar)

/-- Body built by `JSON.stringify(\x7b subscription_id: subscriptionId \x7d)`. -/
def subscriptionIdBody (subscriptionId : String) : String :=
  "\x7b\"subscription_id\":\"" ++ jsonEscape subscriptionId ++ "\"\x7d"

/-- Request of syncMutation.mutationFn: POST to /api/subscriptions/sync
with no headers and no body. -/
def syncRequest : HttpRequest :=
  { url := "/api/subscriptions/sync", method := "POST",
    contentType := none, body := none }

/-- Request of cancelMutation.mutationFn: POST to
/api/subscriptions/cancel with a JSON Content-Type and the stringified
`\x7b subscription_id \x7d` body. -/
def cancelRequest (subscriptionId : String) : HttpRequest :=
  { url := "/api/subscriptions/cancel", method := "POST",
    contentType := some "application/json",
    body := some (subscriptionIdBody subscriptionId) }

/-- Request of reactivateMutation.mutationFn: POST to
/api/subscriptions/reactivate with a JSON Content-Type and the
stringified `\x7b subscription_id \x7d` body. -/
def reactivateRequest (subscriptionId : String) : HttpRequest :=
  { url := "/api/subscriptions/reactivate", method := "POST",
    contentType := some "application/json",
    body := some (subscriptionIdBody subscriptionId) }

/-- The three mutations declared by SubscriptionManager. -/
inductive MutationKind where
  | sync
  | cancel
  | reactivate
deriving DecidableEq

/-- Query keys invalidated by syncMutation.onSuccess, in call order. -/
def syncOnSuccessKeys : List String := ["subscription", "subscription-usage"]

/-- Query keys invalidated by cancelMutation.onSuccess, in call order. -/
def cancelOnSuccessKeys : List String := ["subscription", "subscription-usage"]

/-- Query keys invalidated by reactivateMutation.onSuccess, in call
order. -/
def reactivateOnSuccessKeys : List String := ["subscription", "subscription-usage"]

/-- Query keys invalidated on success, per mutation. -/
def invalidatedKeysOnSuccess (m : MutationKind) : List String :=
  match m with
  | MutationKind.sync => syncOnSuccessKeys
  | MutationKind.cancel => cancelOnSuccessKeys
  | MutationKind.reactivate => reactivateOnSuccessKeys

/-- Component-level state relevant to the mutations: the local
isCancelling useState flag, each mutation's pending flag, the cached
query data with its staleness marks, and the requests issued so far.
Pending-flag semantics (a mutation's isPending flag is set while its
request is in flight and cleared when it settles, with no automatic
retry) are those of the mutation layer the component binds to; the
component itself sets no retry option. -/
structure ManagerState where
  isCancelling : Bool
  cancelPending : Bool
  syncPending : Bool
  reactivatePending : Bool
  subscriptionCache : Option SubObj
  usageCache : Option UsageObj
  subscriptionStale : Bool
  usageStale : Bool
  sentRequests : List HttpRequest
deriving DecidableEq

/-- Translation of handleCancel: guarded by the truthiness of
`subscription?.stripe_subscription_id` (undefined or the empty string
are falsy), it sets isCancelling and fires the cancel mutation, which
issues its request and raises its pending flag. -/
def handleCancel (st : ManagerState) : ManagerState :=
  match st.subscriptionCache with
  | none => st
  | some o =>
    match o.stripe_subscription_id with
    | none => st
    | some id =>
      if id = "" then st
      else
        { st with
          isCancelling := true,
          cancelPending := true,
          sentRequests := st.sentRequests ++ [cancelRequest id] }

/-- Translation of handleReactivate: same guard, fires the reactivate
mutation. -/
def handleReactivate (st : ManagerState) : ManagerState :=
  match st.subscriptionCache with
  | none => st
  | some o =>
    match o.stripe_subscription_id with
    | none => st
    | some id =>
      if id = "" then st
      else
        { st with
          reactivatePending := true,
          sentRequests := st.sentRequests ++ [reactivateRequest id] }

/-- Translation of handleSync: fires the sync mutation unconditionally. -/
def handleSync (st : ManagerState) : ManagerState :=
  { st with
    syncPending := true,
    sentRequests := st.sentRequests ++ [syncRequest] }

/-- Effect of the cancel mutation settling successfully: the pending
flag clears, and onSuccess invalidates both query keys and resets
isCancelling. -/
def cancelSuccess (st : ManagerState) : ManagerState :=
  { st with
    cancelPending := false,
    subscriptionStale := true,
    usageStale := true,
    isCancelling := false }

/-- Effect of the cancel mutation settling with an error: the pending
flag clears; the component registers no onError handler, so nothing
else changes — in particular isCancelling keeps its value and the
cached data is untouched. -/
def cancelError (st : ManagerState) : ManagerState :=
  { st with cancelPending := false }

/-- Effect of the sync mutation settling successfully. -/
def syncSuccess (st : ManagerState) : ManagerState :=
  { st with
    syncPending := false,
    subscriptionStale := true,
    usageStale := true }

/-- Effect of the sync mutation settling with an error: no onError
handler, only the pending flag clears. -/
def syncError (st : ManagerState) : ManagerState :=
  { st with syncPending := false }

/-- Effect of the reactivate mutation settling successfully. -/
def reactivateSuccess (st : ManagerState) : ManagerState :=
  { st with
    reactivatePending := false,
    subscriptionStale := true,
    usageStale := true }

/-- Effect of the reactivate mutation settling with an error: no
onError handler, only the pending flag clears. -/
def reactivateError (st : ManagerState) : ManagerState :=
  { st with reactivatePending := false }

/-- Success handler dispatched per mutation kind. -/
def applyOnSuccess (m : MutationKind) (st : ManagerState) : ManagerState :=
  match m with
  | MutationKind.sync => syncSuccess st
  | MutationKind.cancel => cancelSuccess st
  | MutationKind.reactivate => reactivateSuccess st

/-- Error handler dispatched per mutation kind. -/
def applyOnError (m : MutationKind) (st : ManagerState) : ManagerState :=
  match m with
  | MutationKind.sync => syncError st
  | MutationKind.cancel => cancelError st
  | MutationKind.reactivate => reactivateError st

/-- Disabled condition of the Cancel button:
`isCancelling || cancelMutation.isPending`. -/
def cancelButtonDisabled (st : ManagerState) : Bool :=
  st.isCancelling || st.cancelPending

/-- A quiescent starting state with an active subscription `sub_123`
in cache and a usage record, used for concrete scenarios. -/
def s0 : ManagerState :=
  { isCancelling := false,
    cancelPending := false,
    syncPending := false,
    reactivatePending := false,
    subscriptionCache := some { emptySubObj with
                                status := some "active",
                                stripe_subscription_id := some "sub_123" },
    usageCache := some { has_subscription := true,
                         usage := some { email_connections :=
                           { used := 5,
                             limit := NumOrUnlimited.num 10,
                             remaining := NumOrUnlimited.num 5 } } },
    subscriptionStale := false,
    usageStale := false,
    sentRequests := [] }

/-- Render inputs where both fetches settled without error and the
subscription fetch delivered a `\x7bhas_subscription: false\x7d`-style
object (truthy, but with no subscription fields). -/
def markerProps : ManagerProps :=
  { subscriptionLoading := false, usageLoading := false,
    subscriptionError := false,
    subscription := some { emptySubObj with has_subscription := some false },
    usage := none }

/-- Render inputs where both fetches settled without error and the
subscription fetch delivered a null/undefined (falsy) value. -/
def absentProps : ManagerProps :=
  { subscriptionLoading := false, usageLoading := false,
    subscriptionError := false, subscription := none, usage := none }

/-- Render inputs where the usage fetch failed (no data) while the
subscription fetch errored. -/
def subErrorProps : ManagerProps :=
  { subscriptionLoading := false, usageLoading := false,
    subscriptionError := true, subscription := none, usage := none }

/-- Render inputs where both fetches settled without error, the
subscription fetch delivered a truthy status-less object and the usage
fetch delivered a no-subscription usage record. -/
def statuslessProps : ManagerProps :=
  { subscriptionLoading := false, usageLoading := false,
    subscriptionError := false,
    subscription := some { emptySubObj with has_subscription := some false },
    usage := some { has_subscription := false, usage := none } }

/-- Render inputs where both fetches settled without error and the
subscription fetch delivered an active subscription. -/
def activeProps : ManagerProps :=
  { subscriptionLoading := false, usageLoading := false,
    subscriptionError := false,
    subscription := some { emptySubObj with
                           status := some "active",
                           stripe_subscription_id := some "sub_123" },
    usage := none }

end SubscriptionManager

namespace CheckoutSuccess

/-- Checkout session record consumed by the success view:
`amount_total` in minor currency units, currency code, payment status
and customer email. -/
structure Session where
  amount_total : ℤ
  currency : String
  payment_status : String
  customer_email : String
deriving DecidableEq

/-- State of the CheckoutSuccess component: the session_id query
parameter (`searchParams.get` yields a string or null), the query's
data and error slots, and the local isLoading useState flag
(initialised to true). -/
structure CSState where
  sessionId : Option String
  session : Option Session
  hasError : Bool
  isLoading : Bool
deriving DecidableEq

/-- JS truthiness of a string-or-null value: null, undefined and the
empty string are falsy. -/
def jsTruthyStr (v : Option String) : Bool :=
  match v with
  | none => false
  | some s => !(s == "")

/-- The query's enabled option, translated from `enabled: !!sessionId`:
the fetch runs only when the session_id parameter is (truthily)
present. -/
def queryEnabled (st : CSState) : Bool :=
  jsTruthyStr st.sessionId

/-- Translation of the useEffect body: `if (session || error)
setIsLoading(false)` — isLoading clears exactly when the session data
is truthy or an error is present. -/
def applyEffect (st : CSState) : CSState :=
  if st.session.isSome || st.hasError then { st with isLoading := false }
  else st

/-- Component state on mount for a given session_id parameter: no data,
no error, isLoading true. -/
def initState (sid : Option String) : CSState :=
  { sessionId := sid, session := none, hasError := false, isLoading := true }

/-- One observable transition of the component: the query delivers data
(possibly null) or an error — which it can only do when it is
enabled — and the effect then runs on the new values. -/
inductive CSStep : CSState → CSState → Prop where
  | fetchData (st : CSState) (s : Option Session) :
      queryEnabled st = true →
      CSStep st (applyEffect { st with session := s })
  | fetchError (st : CSState) :
      queryEnabled st = true →
      CSStep st (applyEffect { st with hasError := true })

/-- States reachable from a given initial state by query transitions. -/
inductive CSReachable (init : CSState) : CSState → Prop where
  | refl : CSReachable init init
  | step (st st2 : CSState) :
      CSReachable init st → CSStep st st2 → CSReachable init st2

/-- The three mutually exclusive renders of CheckoutSuccess. -/
inductive CSView where
  | loadingView
  | failureView
  | successView
deriving DecidableEq

/-- Render function of CheckoutSuccess, translated from its return
statements: the spinner while isLoading, the "Payment Failed" view
when `error || !session`, otherwise the "Payment Successful!" view
with the payment details. -/
def renderCS (st : CSState) : CSView :=
  if st.isLoading then CSView.loadingView
  else if st.hasError || st.session.isNone then CSView.failureView
  else CSView.successView

/-- State reached when the query was enabled and settled by delivering
a null session with no error: the effect has run on the new values. -/
def settledNullSession : CSState :=
  applyEffect { initState (some "cs_test") with session := none }

/-- A state whose loading flag has been cleared while the session slot
is empty and no error is present. -/
def clearedNoSession : CSState :=
  { sessionId := some "cs_test", session := none, hasError := false,
    isLoading := false }

end CheckoutSuccess

open SubscriptionManager CheckoutSuccess

/-- Claim C1, counterexample: the progress-bar fraction is not clamped
to [0,1] — at used = 12 and limit = 10 the source computes a width of
(12 / 10) * 100 = 120 percent, i.e. the fraction 6/5, not 1.0 as the
claim states. -/
theorem C1_counterexample :
    progressFraction 12 (NumOrUnlimited.num 10) = 6 / 5 ∧
    progressFraction 12 (NumOrUnlimited.num 10) ≠ 1 := by
  constructor
  · norm_num [progressFraction]
  · norm_num [progressFraction]

/-- Claim C1 (amended): the progress-bar fraction equals 1.0 exactly
when limit is the "unlimited" sentinel, and otherwise equals
used/limit with no clamping, so for used greater than limit it exceeds
1 (e.g. 6/5 at used = 12, limit = 10). -/
theorem C1_progressFraction_unclamped (used n : ℚ) :
    progressFraction used NumOrUnlimited.unlimited = 1 ∧
    progressFraction used (NumOrUnlimited.num n) = used / n :=
  ⟨rfl, rfl⟩

/-- Claim C2: when CheckoutSuccess is loaded with no session_id query
parameter the query is disabled, so no data and no error ever arrive,
the effect never clears isLoading, and every reachable state renders
the loading spinner — the screen never resolves to the error/failure
view, contradicting the claimed deterministic exit from loading. -/
theorem C2_no_session_stays_loading (st : CSState)
    (h : CSReachable (initState none) st) :
    st.isLoading = true ∧ renderCS st = CSView.loadingView := by
  have key : st = initState none := by
    induction h with
    | refl => rfl
    | step st1 st2 h1 hstep ih =>
      rw [ih] at hstep
      cases hstep with
      | fetchData s he =>
        simp [queryEnabled, jsTruthyStr, initState] at he
      | fetchError he =>
        simp [queryEnabled, jsTruthyStr, initState] at he
  rw [key]
  exact ⟨rfl, rfl⟩

/-- Claim C2, witness: the initial state itself is reachable, loading
and rendered as the spinner. -/
theorem C2_no_session_stays_loading_witness :
    (initState none).isLoading = true ∧
    renderCS (initState none) = CSView.loadingView :=
  C2_no_session_stays_loading (initState none) CSReachable.refl

/-- Claim C3: after clicking Cancel and the cancel mutation failing,
the mutation's pending flag is clear and no second request was issued
(no retry) and the cached subscription and usage data are unchanged —
but the local isCancelling flag is never reset (only onSuccess resets
it), so the Cancel button's disabled condition stays true: the button
does not become enabled again, contradicting the claim. -/
theorem C3_cancel_failure_button_stays_disabled :
    (cancelError (handleCancel s0)).cancelPending = false ∧
    (cancelError (handleCancel s0)).isCancelling = true ∧
    cancelButtonDisabled (cancelError (handleCancel s0)) = true ∧
    (cancelError (handleCancel s0)).subscriptionCache = s0.subscriptionCache ∧
    (cancelError (handleCancel s0)).usageCache = s0.usageCache ∧
    (cancelError (handleCancel s0)).sentRequests = [cancelRequest "sub_123"] :=
  ⟨rfl, rfl, rfl, rfl, rfl, rfl⟩

/-- Claim C4, counterexample: a `\x7bhas_subscription: false\x7d`-style
response object is truthy, so the billing section is evaluated and its
`subscription.status.charAt(0)` throws a TypeError on the status-less
object — the render aborts, and in particular the
"No Active Subscription" call-to-action the claim requires is not
rendered. -/
theorem C4_counterexample :
    renderManager markerProps = ManagerRender.throws ∧
    shownSubSection (renderManager markerProps) ≠
      some SubSection.noActiveCTA := by
  exact ⟨rfl, by decide⟩

/-- Claim C4 (amended): once both fetches have settled without a
subscription error, a null/undefined (falsy) subscription value
renders the "No Active Subscription" call-to-action with no action
buttons, while a `\x7bhas_subscription: false\x7d`-style object —
being truthy, with its status field absent — makes the render throw a
TypeError at `subscription.status.charAt(0)` in the billing section,
so no view at all is produced. -/
theorem C4_absent_subscription_rendering (p : ManagerProps) (o : SubObj)
    (h1 : p.subscriptionLoading = false) (h2 : p.usageLoading = false)
    (h3 : p.subscriptionError = false) :
    (p.subscription = none →
      renderManager p = ManagerRender.ok (ManagerView.main SubSection.noActiveCTA
        (usageSectionShown p.usage) false)) ∧
    (p.subscription = some o → o.status = none →
      renderManager p = ManagerRender.throws) := by
  constructor
  · intro hnone
    simp [renderManager, h1, h2, h3, hnone]
  · intro hsome hst
    simp [renderManager, h1, h2, h3, hsome, hst]

/-- Claim C4 (amended), witness: with a null subscription value the
manager renders the call-to-action with no action buttons. -/
theorem C4_absent_subscription_rendering_witness :
    renderManager absentProps =
      ManagerRender.ok (ManagerView.main SubSection.noActiveCTA
        (usageSectionShown absentProps.usage) false) :=
  (C4_absent_subscription_rendering absentProps emptySubObj rfl rfl rfl).1 rfl

/-- Claim C5: each of the three mutations invalidates, on success,
exactly the two query keys `subscription` and `subscription-usage`
(in that order), and its success handler leaves both cached data
values unchanged — the mutation's effect is never applied locally,
only the staleness marks are set so dependent views re-fetch. -/
theorem C5_onSuccess_invalidates_both (m : MutationKind) (st : ManagerState) :
    invalidatedKeysOnSuccess m = ["subscription", "subscription-usage"] ∧
    (applyOnSuccess m st).subscriptionStale = true ∧
    (applyOnSuccess m st).usageStale = true ∧
    (applyOnSuccess m st).subscriptionCache = st.subscriptionCache ∧
    (applyOnSuccess m st).usageCache = st.usageCache := by
  cases m <;> exact ⟨rfl, rfl, rfl, rfl, rfl⟩

/-- Claim C6: getStatusColor and getStatusIcon are total (they are
switches whose default arm always returns) — every unrecognized status
string maps to the neutral gray tokens, and the three recognized
statuses map to their dedicated tokens. -/
theorem C6_status_tokens_total (s : String)
    (h1 : s ≠ "active") (h2 : s ≠ "canceled") (h3 : s ≠ "past_due") :
    getStatusColor s = "text-gray-600 bg-gray-100" ∧
    getStatusIcon s =
      { name := "AlertCircle", className := "w-5 h-5 text-gray-500" } ∧
    getStatusColor "active" = "text-green-600 bg-green-100" ∧
    getStatusIcon "active" =
      { name := "CheckCircle", className := "w-5 h-5 text-green-500" } ∧
    getStatusColor "canceled" = "text-red-600 bg-red-100" ∧
    getStatusIcon "canceled" =
      { name := "XCircle", className := "w-5 h-5 text-red-500" } ∧
    getStatusColor "past_due" = "text-yellow-600 bg-yellow-100" ∧
    getStatusIcon "past_due" =
      { name := "AlertCircle", className := "w-5 h-5 text-yellow-500" } := by
  refine ⟨?_, ?_, rfl, rfl, rfl, rfl, rfl, rfl⟩
  · simp [getStatusColor, h1, h2, h3]
  · simp [getStatusIcon, h1, h2, h3]

/-- Claim C6, witness: the unrecognized status "trialing" maps to the
gray fallback tokens. -/
theorem C6_status_tokens_total_witness :
    getStatusColor "trialing" = "text-gray-600 bg-gray-100" ∧
    getStatusIcon "trialing" =
      { name := "AlertCircle", className := "w-5 h-5 text-gray-500" } ∧
    getStatusColor "active" = "text-green-600 bg-green-100" ∧
    getStatusIcon "active" =
      { name := "CheckCircle", className := "w-5 h-5 text-green-500" } ∧
    getStatusColor "canceled" = "text-red-600 bg-red-100" ∧
    getStatusIcon "canceled" =
      { name := "XCircle", className := "w-5 h-5 text-red-500" } ∧
    getStatusColor "past_due" = "text-yellow-600 bg-yellow-100" ∧
    getStatusIcon "past_due" =
      { name := "AlertCircle", className := "w-5 h-5 text-yellow-500" } :=
  C6_status_tokens_total "trialing" (by decide) (by decide) (by decide)

/-- Claim C7: in the subscription card, status "active" shows the
Cancel button and no Reactivate button, status "canceled" shows the
Reactivate button and no Cancel button, and any other status value
(including an absent one) shows neither. -/
theorem C7_action_buttons_by_status (o : SubObj) :
    (o.status = some "active" →
      subSection (some o) = SubSection.card true false) ∧
    (o.status = some "canceled" →
      subSection (some o) = SubSection.card false true) ∧
    (o.status ≠ some "active" → o.status ≠ some "canceled" →
      subSection (some o) = SubSection.card false false) := by
  refine ⟨?_, ?_, ?_⟩
  · intro h
    simp [subSection, h]
  · intro h
    simp [subSection, h]
  · intro h1 h2
    simp [subSection, h1, h2]

/-- Claim C7, witness: the three status cases evaluated on concrete
subscription objects. -/
theorem C7_action_buttons_by_status_witness :
    subSection (some { emptySubObj with status := some "active" }) =
      SubSection.card true false ∧
    subSection (some { emptySubObj with status := some "canceled" }) =
      SubSection.card false true ∧
    subSection (some { emptySubObj with status := some "past_due" }) =
      SubSection.card false false :=
  ⟨(C7_action_buttons_by_status { emptySubObj with status := some "active" }).1 rfl,
   (C7_action_buttons_by_status { emptySubObj with status := some "canceled" }).2.1 rfl,
   (C7_action_buttons_by_status { emptySubObj with status := some "past_due" }).2.2
     (by decide) (by decide)⟩

/-- Claim C8: clicking Cancel with cached subscription id sub_123
issues exactly one POST to /api/subscriptions/cancel with Content-Type
application/json and body `\x7b"subscription_id":"sub_123"\x7d`, raises
the pending flag, and on success the pending flag returns to false. -/
theorem C8_cancel_request_shape :
    (handleCancel s0).sentRequests =
      [{ url := "/api/subscriptions/cancel", method := "POST",
         contentType := some "application/json",
         body := some "\x7b\"subscription_id\":\"sub_123\"\x7d" }] ∧
    (handleCancel s0).cancelPending = true ∧
    (cancelSuccess (handleCancel s0)).cancelPending = false := by
  refine ⟨?_, rfl, rfl⟩
  decide

/-- Claim C9, counterexample: with both loading flags clear and no
subscription error, a truthy status-less subscription object (the
documented `\x7bhas_subscription: false\x7d`-style response) makes the
render throw at `subscription.status.charAt(0)` in the billing
section, so the normal layout the claim promises is not rendered. -/
theorem C9_counterexample :
    renderManager statuslessProps = ManagerRender.throws ∧
    isMainLayout (renderManager statuslessProps) = false := by
  exact ⟨rfl, rfl⟩

/-- Claim C9 (amended): the manager renders its dedicated error view
exactly when the subscription fetch errored — a usage fetch error
alone never produces the error view.  Once both loading flags are
clear with no subscription error, the manager renders the normal
layout when the subscription value carries a status string (with the
usage section simply omitted when usage data is absent), and renders
the call-to-action layout when the subscription value is absent; a
truthy status-less subscription object instead makes the render throw
a TypeError in the billing section, producing no layout. -/
theorem C9_error_view_iff_subscription_error (p : ManagerProps)
    (h1 : p.subscriptionLoading = false) (h2 : p.usageLoading = false) :
    (renderManager p = ManagerRender.ok ManagerView.errorView ↔
      p.subscriptionError = true) ∧
    (∀ o s, p.subscriptionError = false → p.subscription = some o →
      o.status = some s →
      renderManager p = ManagerRender.ok (ManagerView.main (subSection (some o))
        (usageSectionShown p.usage) true)) ∧
    (∀ o, p.subscriptionError = false → p.subscription = some o →
      o.status = none → renderManager p = ManagerRender.throws) ∧
    (p.subscriptionError = false → p.subscription = none →
      renderManager p = ManagerRender.ok (ManagerView.main SubSection.noActiveCTA
        (usageSectionShown p.usage) false)) ∧
    (p.usage = none → usageSectionShown p.usage = false) := by
  refine ⟨?_, ?_, ?_, ?_, ?_⟩
  · cases hE : p.subscriptionError with
    | false =>
      cases hsub : p.subscription with
      | none => simp [renderManager, h1, h2, hE, hsub]
      | some o =>
        cases hst : o.status <;> simp [renderManager, h1, h2, hE, hsub, hst]
    | true => simp [renderManager, h1, h2, hE]
  · intro o s hE hsub hst
    simp [renderManager, h1, h2, hE, hsub, hst]
  · intro o hE hsub hst
    simp [renderManager, h1, h2, hE, hsub, hst]
  · intro hE hsub
    simp [renderManager, h1, h2, hE, hsub]
  · intro hu
    simp [usageSectionShown, hu]

/-- Claim C9 (amended), witness: with a subscription error the error
view is rendered, with an active subscription the normal layout is
completed, and an absent usage value hides the usage section. -/
theorem C9_error_view_iff_subscription_error_witness :
    (renderManager subErrorProps = ManagerRender.ok ManagerView.errorView ↔
      subErrorProps.subscriptionError = true) ∧
    renderManager activeProps =
      ManagerRender.ok (ManagerView.main (subSection activeProps.subscription)
        (usageSectionShown activeProps.usage) true) ∧
    usageSectionShown subErrorProps.usage = false :=
  ⟨(C9_error_view_iff_subscription_error subErrorProps rfl rfl).1,
   (C9_error_view_iff_subscription_error activeProps rfl rfl).2.1
     { emptySubObj with
       status := some "active",
       stripe_subscription_id := some "sub_123" } "active" rfl rfl rfl,
   (C9_error_view_iff_subscription_error subErrorProps rfl rfl).2.2.2.2 rfl⟩

/-- Claim C10, counterexample: when the fetch settles by delivering a
null (falsy) session with no error, the effect leaves isLoading true,
so the screen still renders the loading view — not the failure view
the claim requires. -/
theorem C10_counterexample :
    renderCS settledNullSession = CSView.loadingView ∧
    renderCS settledNullSession ≠ CSView.failureView := by
  exact ⟨rfl, by decide⟩

/-- Claim C10 (amended): once the loading flag has been cleared, the
screen renders the failure view exactly when an error is present or
the session data is absent (falsy) — even with no error — and the
success view with payment details exactly when a session object is
present and no error occurred; however, a fetch that settles with an
absent session and no error never clears the loading flag, so in that
case the loading view persists. -/
theorem C10_settled_render (st : CSState) (h : st.isLoading = false) :
    (renderCS st = CSView.failureView ↔
      (st.hasError = true ∨ st.session = none)) ∧
    (renderCS st = CSView.successView ↔
      (st.hasError = false ∧ st.session ≠ none)) := by
  cases hE : st.hasError <;> cases hS : st.session <;>
    simp [renderCS, h, hE, hS]

/-- Claim C10 (amended), witness: with loading cleared, no error and
an absent session the failure view is rendered. -/
theorem C10_settled_render_witness :
    (renderCS clearedNoSession = CSView.failureView ↔
      (clearedNoSession.hasError = true ∨ clearedNoSession.session = none)) ∧
    (renderCS clearedNoSession = CSView.successView ↔
      (clearedNoSession.hasError = false ∧ clearedNoSession.session ≠ none)) :=
  C10_settled_render clearedNoSession rfl

end InvoiceFrontend
